import Mathlib

/-!
Verification of the RohlikApi repository core against its natural-language
specification.  The TypeScript sources are shallowly embedded: numbers that
the code manipulates as JavaScript floats are modelled as exact rationals
(the prices and timeouts involved are small decimals for which the float
computations the claims mention are exact), thrown exceptions are modelled
with `Except`, and stateful classes are modelled as explicit state-passing
functions.
-/

namespace RohlikApi

/-! ## Price parsing

Embeds `HtmlParserService.parsePrice` (middleware/src/services/html-parser.ts,
lines 419-430) and `CartService.parsePrice` (cart service, lines 874-885).
Both clean the input with `replace(/[^\d,.-]/g, '')`, normalise the first
comma to a dot with `replace(',', '.')` (JavaScript `String.replace` with a
string pattern replaces only the first occurrence), and apply `parseFloat`.
-/

/-- Characters kept by the cleaning regex `[^\d,.-]`: ASCII digits, comma,
dot and minus. -/
def isPriceChar (c : Char) : Bool :=
  c.isDigit || c = ',' || c = '.' || c = '-'

/-- The cleaning step `priceText.replace(/[^\d,.-]/g, '')`. -/
def cleanPriceChars (cs : List Char) : List Char :=
  cs.filter isPriceChar

/-- The normalisation step `cleanText.replace(',', '.')`: JavaScript string
replace with a string pattern replaces only the first occurrence. -/
def replaceFirstComma : List Char → List Char
  | [] => []
  | c :: rest => if c = ',' then '.' :: rest else c :: replaceFirstComma rest

/-- Value of a digit string, most significant first. -/
def digitsToNat (cs : List Char) : Nat :=
  cs.foldl (fun a c => 10 * a + (c.toNat - 48)) 0

/-- JavaScript `String.prototype.trim`: strip leading and trailing
whitespace. -/
def jsTrim (s : String) : String :=
  ⟨((s.data.dropWhile Char.isWhitespace).reverse.dropWhile Char.isWhitespace).reverse⟩

/-- Numeric value of an integer digit run together with a fraction digit
run: `ip.fp` as an exact rational. -/
def ratOfDigits (neg : Bool) (ip fp : List Char) : ℚ :=
  let mag : ℚ := (digitsToNat ip : ℚ) + (digitsToNat fp : ℚ) / (10 : ℚ) ^ fp.length
  if neg then -mag else mag

/-- JavaScript `parseFloat`, restricted to the alphabet that survives the
cleaning step (digits, comma, dot, minus; no whitespace, exponent marker or
`Infinity` can remain after cleaning, so those branches of `parseFloat` are
unreachable here).  `parseFloat` consumes an optional sign, an integer digit
run, and optionally a dot followed by a fraction digit run, ignores any
trailing garbage, and yields NaN (modelled as `none`) when no digit was
consumed. -/
def jsParseFloat (cs : List Char) : Option ℚ :=
  let signed : Bool × List Char :=
    match cs with
    | '-' :: rest => (true, rest)
    | '+' :: rest => (false, rest)
    | _ => (false, cs)
  let ip := signed.2.takeWhile Char.isDigit
  let rest := signed.2.dropWhile Char.isDigit
  let fp : List Char :=
    match rest with
    | '.' :: r => r.takeWhile Char.isDigit
    | _ => []
  if ip = [] ∧ fp = [] then none
  else some (ratOfDigits signed.1 ip fp)

/-- Cleaning followed by first-comma normalisation, shared by both parsers. -/
def normalizePrice (s : String) : List Char :=
  replaceFirstComma (cleanPriceChars s.data)

namespace HtmlParserService

/-- The private `parsePrice` of `HtmlParserService`: empty input is falsy and
yields `undefined`; otherwise the cleaned, normalised text is fed to
`parseFloat`, with NaN mapped to `undefined` (`none`). -/
def parsePrice (priceText : String) : Option ℚ :=
  if priceText = "" then none
  else jsParseFloat (normalizePrice priceText)

end HtmlParserService

namespace CartService

/-- The private `parsePrice` of `CartService`: identical cleaning and
normalisation, but both the empty input and a NaN parse yield `0`. -/
def parsePrice (priceText : String) : ℚ :=
  if priceText = "" then 0
  else
    match jsParseFloat (normalizePrice priceText) with
    | none => 0
    | some q => q

end CartService

/-! ## Session manager

Embeds `SessionManager` from `session-manager.ts`.  Timestamps are integer
milliseconds since the epoch (`Date.now()` / `Date.getTime()` values).  The
`tough-cookie` jar is abstracted to its stored cookie strings; the only fact
the spec claims about it here is that `clearSession` replaces it with a fresh
(empty) jar. -/

structure SessionData where
  sessionId : Option String
  userId : Option String
  email : Option String
  isAuthenticated : Bool
  lastActivity : ℤ
  expiresAt : ℤ
deriving DecidableEq, Repr

structure SessionManager where
  cookieJar : List String
  sessionData : SessionData
  sessionTimeout : ℤ
deriving DecidableEq, Repr

namespace SessionManager

/-- The constructor `new SessionManager()` at time `now` with the configured
timeout `SESSION_TIMEOUT_MINUTES * 60 * 1000` already converted to
milliseconds: fresh cookie jar, unauthenticated, `expiresAt = now + timeout`. -/
def init (now timeout : ℤ) : SessionManager :=
  { cookieJar := []
    sessionData :=
      { sessionId := none, userId := none, email := none,
        isAuthenticated := false, lastActivity := now, expiresAt := now + timeout }
    sessionTimeout := timeout }

/-- `setAuthenticated(sessionId, userId?, email?)` called at time `now`:
replaces the session data wholesale, authenticated, with
`expiresAt = now + sessionTimeout`.  The cookie jar is untouched. -/
def setAuthenticated (m : SessionManager) (now : ℤ) (sessionId : String)
    (userId email : Option String) : SessionManager :=
  { m with
    sessionData :=
      { sessionId := some sessionId, userId := userId, email := email,
        isAuthenticated := true, lastActivity := now,
        expiresAt := now + m.sessionTimeout } }

/-- `clearSession()` at time `now`: resets the session data to the
unauthenticated shape and replaces the cookie jar with a fresh one. -/
def clearSession (m : SessionManager) (now : ℤ) : SessionManager :=
  { m with
    cookieJar := []
    sessionData :=
      { sessionId := none, userId := none, email := none,
        isAuthenticated := false, lastActivity := now,
        expiresAt := now + m.sessionTimeout } }

/-- `updateActivity()` at time `now`: slides `lastActivity` and `expiresAt`
forward. -/
def updateActivity (m : SessionManager) (now : ℤ) : SessionManager :=
  { m with
    sessionData :=
      { m.sessionData with lastActivity := now, expiresAt := now + m.sessionTimeout } }

/-- `isSessionValid()` at time `now`: computes
`isAuthenticated && now < expiresAt` and, when that fails while the session
was authenticated, clears the session as a side effect.  Returned as
(result, post-state). -/
def isSessionValid (m : SessionManager) (now : ℤ) : Bool × SessionManager :=
  let isValid := m.sessionData.isAuthenticated && decide (now < m.sessionData.expiresAt)
  if !isValid && m.sessionData.isAuthenticated then (isValid, m.clearSession now)
  else (isValid, m)

/-- `needsRenewal()` at time `now`: `false` when unauthenticated, otherwise
`expiresAt - now < sessionTimeout * 0.2` (strict).  The float product
`sessionTimeout * 0.2` equals the exact rational `sessionTimeout / 5` for
every minute-granular timeout the configuration can produce, so the
comparison is modelled with exact rationals. -/
def needsRenewal (m : SessionManager) (now : ℤ) : Bool :=
  if !m.sessionData.isAuthenticated then false
  else decide (((m.sessionData.expiresAt - now : ℤ) : ℚ) < (m.sessionTimeout : ℚ) / 5)

end SessionManager

/-- A session manager with the default 30-minute timeout (1 800 000 ms),
constructed at time 0 and authenticated at time 0. -/
def renewalSession : SessionManager :=
  (SessionManager.init 0 1800000).setAuthenticated 0 "session-1" none none

/-- C7: `isValid()` returns `isAuthenticated && now < expiresAt`; after
`setAuthenticated` at `t0`, the check fails and clears the session data and
the cookie jar exactly when `now ≥ t0 + timeout`, while for `now < t0 +
timeout` it returns `true` and leaves the state untouched. -/
theorem isSessionValid_after_setAuthenticated
    (m : SessionManager) (t0 now : ℤ) (sid : String) (uid em : Option String) :
    (((m.setAuthenticated t0 sid uid em).isSessionValid now).1
        = ((m.setAuthenticated t0 sid uid em).sessionData.isAuthenticated
            && decide (now < (m.setAuthenticated t0 sid uid em).sessionData.expiresAt))) ∧
    (t0 + m.sessionTimeout ≤ now →
      ((m.setAuthenticated t0 sid uid em).isSessionValid now).1 = false ∧
      ((m.setAuthenticated t0 sid uid em).isSessionValid now).2.sessionData.isAuthenticated
        = false ∧
      ((m.setAuthenticated t0 sid uid em).isSessionValid now).2.cookieJar = []) ∧
    (now < t0 + m.sessionTimeout →
      ((m.setAuthenticated t0 sid uid em).isSessionValid now).1 = true ∧
      ((m.setAuthenticated t0 sid uid em).isSessionValid now).2
        = m.setAuthenticated t0 sid uid em) := by
  refine ⟨?_, ?_, ?_⟩
  · simp only [SessionManager.isSessionValid]
    split <;> rfl
  · intro h
    have hlt : ¬ now < t0 + m.sessionTimeout := not_lt.mpr h
    simp [SessionManager.isSessionValid, SessionManager.setAuthenticated,
      SessionManager.clearSession, hlt]
  · intro h
    simp [SessionManager.isSessionValid, SessionManager.setAuthenticated, h]

/-- Witness for C7: with the default 30-minute timeout, authentication at
time 0 and a check at time 1 800 000 (exactly the timeout later), the check
fails and both the session data and the cookie jar are cleared. -/
theorem isSessionValid_after_setAuthenticated_witness :
    ((0 : ℤ) + (SessionManager.init 0 1800000).sessionTimeout ≤ 1800000) ∧
    ((((SessionManager.init 0 1800000).setAuthenticated 0 "session-1" none
        none).isSessionValid 1800000).1 = false ∧
      (((SessionManager.init 0 1800000).setAuthenticated 0 "session-1" none
        none).isSessionValid 1800000).2.sessionData.isAuthenticated = false ∧
      (((SessionManager.init 0 1800000).setAuthenticated 0 "session-1" none
        none).isSessionValid 1800000).2.cookieJar = []) :=
  ⟨by decide,
    (isSessionValid_after_setAuthenticated (SessionManager.init 0 1800000) 0
      1800000 "session-1" none none).2.1 (by decide)⟩

/-- C8 counterexample: with the default 30-minute timeout (1 800 000 ms) and
authentication at time 0, at time 1 440 000 the remaining lifetime is exactly
360 000 ms, which is exactly 20 % of the timeout — at most 20 %, so the claim
demands `needsRenewal() = true` — yet the code returns `false`, because its
comparison `timeUntilExpiry < renewalThreshold` is strict. -/
theorem needsRenewal_at_boundary_counterexample :
    renewalSession.sessionData.isAuthenticated = true ∧
    renewalSession.sessionData.expiresAt - 1440000 = 360000 ∧
    ((renewalSession.sessionData.expiresAt - 1440000 : ℤ) : ℚ)
      ≤ (renewalSession.sessionTimeout : ℚ) / 5 ∧
    renewalSession.needsRenewal 1440000 = false := by
  refine ⟨rfl, by decide, ?_, ?_⟩
  · show ((360000 : ℤ) : ℚ) ≤ (1800000 : ℚ) / 5
    norm_num
  · show (if _ then _ else decide (((360000 : ℤ) : ℚ) < (1800000 : ℚ) / 5)) = false
    norm_num [renewalSession, SessionManager.init, SessionManager.setAuthenticated]

/-- C8 (amended): for an authenticated session created by `setAuthenticated`
at `t0`, `needsRenewal()` at `now` is `true` iff the remaining time
`t0 + timeout - now` is strictly below 20 % of the configured timeout (the
code compares with `<`, not `≤`). -/
theorem needsRenewal_iff_strict
    (m : SessionManager) (t0 now : ℤ) (sid : String) (uid em : Option String) :
    (m.setAuthenticated t0 sid uid em).needsRenewal now = true ↔
      ((t0 + m.sessionTimeout - now : ℤ) : ℚ) < (m.sessionTimeout : ℚ) / 5 := by
  simp [SessionManager.needsRenewal, SessionManager.setAuthenticated]

/-! ## Rate-limited transport

Embeds the request interceptor of `RohlikClient.setupInterceptors`
(part_006, lines 59-94): before any network call the interceptor consumes
one unit from the rate limiter and, when that fails, throws
`Error('Rate limit exceeded')` without issuing the network call, queueing,
or sleeping.  Times are in seconds, matching the limiter's
`duration: 60`. -/

structure RateLimiterState where
  points : ℕ
  duration : ℕ
  used : ℕ
  windowStart : ℕ
deriving DecidableEq, Repr

namespace RateLimiterState

/-- Modelled from the spec: the fixed-window counter of the
`RateLimiterMemory` dependency (rate-limiter-flexible, not part of this
repository's sources), as §4.2 and the glossary describe it — at most
`points` consumptions per `duration`-second window, the counter resetting
when a window elapses, with no carryover.  `consume` returns whether the
unit was granted together with the new counter state. -/
def consume (rl : RateLimiterState) (now : ℕ) : Bool × RateLimiterState :=
  let rl1 :=
    if rl.windowStart + rl.duration ≤ now then
      { rl with used := 0, windowStart := now }
    else rl
  if rl1.used < rl1.points then (true, { rl1 with used := rl1.used + 1 })
  else (false, rl1)

/-- A fresh limiter as the `RohlikClient` constructor builds it:
`points = RATE_LIMIT_REQUESTS_PER_MINUTE`, `duration = 60` seconds, nothing
consumed yet. -/
def init (points windowStart : ℕ) : RateLimiterState :=
  { points := points, duration := 60, used := 0, windowStart := windowStart }

end RateLimiterState

/-- Outcome of one request attempt through the interceptor. -/
inductive RequestOutcome
  | issued
  | rateLimitExceeded
deriving DecidableEq, Repr

/-- Transport state: the limiter plus a count of network calls actually
issued to axios. -/
structure TransportState where
  limiter : RateLimiterState
  networkCalls : ℕ
deriving DecidableEq, Repr

/-- One pass through the request interceptor at time `now`: consume a unit;
on failure throw `Error('Rate limit exceeded')` immediately — the
interceptor rejects the request before axios issues anything, so
`networkCalls` is unchanged; on success the request proceeds to the
network. -/
def requestStep (st : TransportState) (now : ℕ) : RequestOutcome × TransportState :=
  let c := st.limiter.consume now
  if c.1 then (RequestOutcome.issued, ⟨c.2, st.networkCalls + 1⟩)
  else (RequestOutcome.rateLimitExceeded, ⟨c.2, st.networkCalls⟩)

/-- Run a sequence of request attempts at the given times. -/
def runRequests (st : TransportState) : List ℕ → TransportState
  | [] => st
  | t :: ts => runRequests (requestStep st t).2 ts

theorem runRequests_window_invariant (points w n0 : ℕ) :
    ∀ (ts : List ℕ) (st : TransportState),
      (∀ t ∈ ts, t < w + 60) →
      st.limiter.windowStart = w → st.limiter.duration = 60 →
      st.limiter.points = points → st.limiter.used ≤ points →
      st.networkCalls + (points - st.limiter.used) ≤ n0 + points →
      (runRequests st ts).networkCalls ≤ n0 + points := by
  intro ts
  induction ts with
  | nil =>
    intro st _ _ _ _ hu hc
    simpa [runRequests] using le_trans (Nat.le_add_right _ _) hc
  | cons t ts ih =>
    intro st hts hw hd hp hu hc
    have ht : t < w + 60 := hts t (List.mem_cons_self t ts)
    have hts2 : ∀ u ∈ ts, u < w + 60 := fun u hu2 => hts u (List.mem_cons_of_mem t hu2)
    have hnoreset : ¬ st.limiter.windowStart + st.limiter.duration ≤ t := by
      rw [hw, hd]; omega
    simp only [runRequests, requestStep, RateLimiterState.consume, hnoreset, if_false]
    by_cases hroom : st.limiter.used < st.limiter.points
    · simp only [hroom, if_true]
      refine ih _ hts2 hw hd hp ?_ ?_
      · show st.limiter.used + 1 ≤ points
        omega
      · show st.networkCalls + 1 + (points - (st.limiter.used + 1)) ≤ n0 + points
        omega
    · simp only [hroom, if_false]
      exact ih _ hts2 hw hd hp hu hc

/-- C9: (1) a request attempt rejected by the limiter fails immediately and
issues no network call; (2) an attempt made while the current window is
exhausted (`used ≥ points` with the window not yet elapsed) is rejected with
the rate-limit error; (3) starting from a fresh limiter, any sequence of
attempts whose times fall inside one 60-second window issues at most
`points` network calls. -/
theorem rateLimiter_fixed_window_spec :
    (∀ (st : TransportState) (now : ℕ),
      (requestStep st now).1 = RequestOutcome.rateLimitExceeded →
      (requestStep st now).2.networkCalls = st.networkCalls) ∧
    (∀ (st : TransportState) (now : ℕ),
      now < st.limiter.windowStart + st.limiter.duration →
      st.limiter.points ≤ st.limiter.used →
      (requestStep st now).1 = RequestOutcome.rateLimitExceeded) ∧
    (∀ (points w : ℕ) (ts : List ℕ), (∀ t ∈ ts, t < w + 60) →
      (runRequests ⟨RateLimiterState.init points w, 0⟩ ts).networkCalls ≤ points) := by
  refine ⟨?_, ?_, ?_⟩
  · intro st now h
    simp only [requestStep] at h ⊢
    split at h
    · simp_all
    · simp_all [requestStep]
  · intro st now hwin hfull
    have hnoreset : ¬ st.limiter.windowStart + st.limiter.duration ≤ now := by omega
    simp [requestStep, RateLimiterState.consume, hnoreset, Nat.not_lt.mpr hfull]
  · intro points w ts hts
    simpa using runRequests_window_invariant points w 0 ts
      ⟨RateLimiterState.init points w, 0⟩ hts rfl rfl rfl (Nat.zero_le _)
      (by simp [RateLimiterState.init])

/-- Witness for C9: with a budget of 2 requests per window, four attempts at
times 0, 10, 20, 30 inside the same window issue at most 2 network calls. -/
theorem rateLimiter_fixed_window_spec_witness :
    (∀ t ∈ [0, 10, 20, 30], t < 0 + 60) ∧
    (runRequests ⟨RateLimiterState.init 2 0, 0⟩ [0, 10, 20, 30]).networkCalls ≤ 2 :=
  ⟨by decide, rateLimiter_fixed_window_spec.2.2 2 0 [0, 10, 20, 30] (by decide)⟩

/-! ## Cart mutations: the dual-path (API-then-form) mechanism

Embeds `CartService.addToCart` / `updateCartItem` / `removeFromCart` and
their `...ViaApi` / `...ViaForm` helpers (part_003, lines 581-1036).  The
model covers the authenticated, product-found path: the guard clauses that
precede the dual-path block throw before either path is attempted and are
outside every claim.  A `rohlikClient.post` of the structured endpoint is
summarised by `PostResult`: either the promise rejected (`thrown`, covering
transport errors and axios-rejected non-2xx statuses) or it resolved with a
status and the optional `data.success` flag. -/

/-- JavaScript `a || d` for strings: the empty string is falsy. -/
def jsOrStr (s d : String) : String :=
  if s = "" then d else s

/-- JavaScript `a || d` where `a` may be `undefined`: both `undefined` and
the empty string fall through to the default. -/
def jsOrOptStr (o : Option String) (d : String) : String :=
  match o with
  | none => d
  | some s => jsOrStr s d

/-- An `<input>` element of a discovered form: its `name` and `value`
attributes (the empty string standing for an absent/empty attribute, which
is falsy in the source's `if (name && value)` check). -/
structure HtmlInput where
  name : String
  value : String
deriving DecidableEq, Repr

/-- A form element: its `action` attribute and its input elements in
document order. -/
structure HtmlForm where
  action : Option String
  inputs : List HtmlInput
deriving DecidableEq, Repr

/-- `URLSearchParams.append`. -/
def uspAppend (ps : List (String × String)) (n v : String) : List (String × String) :=
  ps ++ [(n, v)]

/-- `URLSearchParams.set`: overwrite the first entry with that name in
place, delete any later ones; append when the name is absent. -/
def uspSet : List (String × String) → String → String → List (String × String)
  | [], n, v => [(n, v)]
  | (m, w) :: rest, n, v =>
    if m = n then (n, v) :: rest.filter (fun p => p.1 != n)
    else (m, w) :: uspSet rest n v

/-- The form-data collection loop: for each input with a truthy name and
value, append it.  `none` stands for an empty cheerio selection (no form
found), whose `find('input')` is empty. -/
def collectInputs : Option HtmlForm → List (String × String)
  | none => []
  | some f =>
    f.inputs.foldl
      (fun acc i =>
        if i.name ≠ "" ∧ i.value ≠ "" then uspAppend acc i.name i.value else acc)
      []

namespace CartService

/-- Result of the structured `rohlikClient.post` call. -/
inductive PostResult
  | thrown
  | resolved (status : ℕ) (success : Option Bool)
deriving DecidableEq, Repr

/-- Lines 890-905: `addToCartViaApi`.  The whole body sits inside
`try/catch`; a rejected post is caught, logged at debug level, and `false`
is returned — the function itself never throws, so its result is always
`Except.ok`. -/
def addToCartViaApi : PostResult → Except Unit Bool
  | PostResult.thrown => Except.ok false
  | PostResult.resolved status success =>
      Except.ok (status == 200 && success == some true)

/-- Lines 954-965: `updateCartViaApi`, same shape as `addToCartViaApi`. -/
def updateCartViaApi : PostResult → Except Unit Bool
  | PostResult.thrown => Except.ok false
  | PostResult.resolved status success =>
      Except.ok (status == 200 && success == some true)

/-- Lines 1014-1024: `removeFromCartViaApi`, same shape. -/
def removeFromCartViaApi : PostResult → Except Unit Bool
  | PostResult.thrown => Except.ok false
  | PostResult.resolved status success =>
      Except.ok (status == 200 && success == some true)

/-- Environment of the add-to-cart form fallback: the result of fetching
the product page (the forms matching
`form[action*="cart"], form[action*="kosik"], .add-to-cart-form` in
document order, or a rejected fetch), and the network behaviour of the
form-encoded POST. -/
structure FormEnv where
  productPage : Except Unit (List HtmlForm)
  submit : String → List (String × String) → Except Unit ℕ

/-- Number of form-encoded POSTs the add-to-cart fallback would issue: one
whenever the reference-page fetch resolves (there is no earlier bail-out). -/
def FormEnv.submitCount (env : FormEnv) : ℕ :=
  match env.productPage with
  | Except.error _ => 0
  | Except.ok _ => 1

/-- Lines 910-948: `addToCartViaForm`.  Fetch the product page, take the
first matching form (an empty selection defaults the action), collect its
truthy inputs, overwrite `product_id` and `quantity`, POST form-encoded,
and report `status < 400`.  Every failure along the way is caught by the
function's own `catch` and returned as `false`; nothing in this function
inspects an anti-forgery token. -/
def addToCartViaForm (env : FormEnv) (productId : String) (quantity : ℕ) :
    Except Unit Bool :=
  match env.productPage with
  | Except.error _ => Except.ok false
  | Except.ok forms =>
    let form := forms.head?
    let formAction := jsOrOptStr (form.bind fun f => f.action) "/kosik/pridat"
    let fd := uspSet (uspSet (collectInputs form) "product_id" productId)
      "quantity" (toString quantity)
    match env.submit formAction fd with
    | Except.error _ => Except.ok false
    | Except.ok status => Except.ok (decide (status < 400))

/-- Environment of the cart-page form fallback used by update/remove: the
result of fetching the cart page, already narrowed to the forms matching
the product-specific selector, and the network behaviour of the POST. -/
structure CartFormEnv where
  cartPage : Except Unit (List HtmlForm)
  submit : String → List (String × String) → Except Unit ℕ

/-- Number of form-encoded POSTs the cart-page fallback would issue: one
when the fetch resolves and an item form is found. -/
def CartFormEnv.submitCount (env : CartFormEnv) : ℕ :=
  match env.cartPage with
  | Except.error _ => 0
  | Except.ok forms => match forms.head? with | none => 0 | some _ => 1

/-- Lines 970-1009: `updateCartViaForm`.  Fetch the cart page; when no item
form matches, `throw` — caught by this same function's `catch`, hence
`false`; otherwise collect inputs, overwrite `quantity`, POST, and report
`status < 400`; all failures again surface as the soft value `false`. -/
def updateCartViaForm (env : CartFormEnv) (quantity : ℕ) : Except Unit Bool :=
  match env.cartPage with
  | Except.error _ => Except.ok false
  | Except.ok forms =>
    match forms.head? with
    | none => Except.ok false
    | some itemForm =>
      let formAction := jsOrOptStr itemForm.action "/kosik/upravit"
      let fd := uspSet (collectInputs (some itemForm)) "quantity" (toString quantity)
      match env.submit formAction fd with
      | Except.error _ => Except.ok false
      | Except.ok status => Except.ok (decide (status < 400))

/-- Lines 1029-1036: `removeFromCartViaForm` delegates to
`updateCartViaForm` with quantity 0 (its own `catch` is unreachable since
the delegate never throws). -/
def removeFromCartViaForm (env : CartFormEnv) : Except Unit Bool :=
  updateCartViaForm env 0

/-- Terminal outcome of a cart mutation: the refreshed cart on success, or
the generic thrown `Error('Failed to ... cart')`.  These are the only two
exits of the embedded region; no other error can escape it. -/
inductive MutationOutcome
  | success
  | failedError
deriving DecidableEq, Repr

/-- Observable trace of one mutation: whether the form fallback was
invoked, how many state-changing POSTs were issued (the structured POST
plus any form submission; the trailing `getCart()` refresh is a read-only
GET), and the terminal outcome. -/
structure MutationTrace where
  formAttempted : Bool
  mutatingPosts : ℕ
  outcome : MutationOutcome
deriving DecidableEq, Repr

/-- Lines 599-626: the dual-path block of `addToCart`.  `success` is set
from `addToCartViaApi`; only a *thrown* API helper reaches the `catch` that
invokes `addToCartViaForm`.  A falsy `success` then throws the generic
error. -/
def addToCart (post : PostResult) (env : FormEnv) (productId : String)
    (quantity : ℕ) : MutationTrace :=
  match addToCartViaApi post with
  | Except.ok s =>
      { formAttempted := false, mutatingPosts := 1,
        outcome := if s then MutationOutcome.success else MutationOutcome.failedError }
  | Except.error _ =>
      match addToCartViaForm env productId quantity with
      | Except.ok s =>
          { formAttempted := true, mutatingPosts := 1 + env.submitCount,
            outcome := if s then MutationOutcome.success else MutationOutcome.failedError }
      | Except.error _ =>
          { formAttempted := true, mutatingPosts := 1 + env.submitCount,
            outcome := MutationOutcome.failedError }

/-- Lines 710-735: the dual-path block of `removeFromCart`, same shape. -/
def removeFromCart (post : PostResult) (env : CartFormEnv) : MutationTrace :=
  match removeFromCartViaApi post with
  | Except.ok s =>
      { formAttempted := false, mutatingPosts := 1,
        outcome := if s then MutationOutcome.success else MutationOutcome.failedError }
  | Except.error _ =>
      match removeFromCartViaForm env with
      | Except.ok s =>
          { formAttempted := true, mutatingPosts := 1 + env.submitCount,
            outcome := if s then MutationOutcome.success else MutationOutcome.failedError }
      | Except.error _ =>
          { formAttempted := true, mutatingPosts := 1 + env.submitCount,
            outcome := MutationOutcome.failedError }

/-- Lines 654-684: `updateCartItem`: quantity 0 delegates to
`removeFromCart` (with that call's own structured POST); otherwise the same
dual-path block with the update helpers. -/
def updateCartItem (postUpdate postRemove : PostResult) (env : CartFormEnv)
    (quantity : ℕ) : MutationTrace :=
  if quantity = 0 then removeFromCart postRemove env
  else
    match updateCartViaApi postUpdate with
    | Except.ok s =>
        { formAttempted := false, mutatingPosts := 1,
          outcome := if s then MutationOutcome.success else MutationOutcome.failedError }
    | Except.error _ =>
        match updateCartViaForm env quantity with
        | Except.ok s =>
            { formAttempted := true, mutatingPosts := 1 + env.submitCount,
              outcome := if s then MutationOutcome.success else MutationOutcome.failedError }
        | Except.error _ =>
            { formAttempted := true, mutatingPosts := 1 + env.submitCount,
              outcome := MutationOutcome.failedError }

end CartService

/-- A discovered add-to-cart form that does carry an anti-forgery token, on
a reachable page with a working submission endpoint. -/
def tokenForm : HtmlForm :=
  { action := some "/kosik/pridat",
    inputs := [{ name := "_token", value := "abc123" }] }

/-- A fully working fallback environment: token-bearing form, submissions
answered with status 200. -/
def liveFormEnv : CartService.FormEnv :=
  { productPage := Except.ok [tokenForm], submit := fun _ _ => Except.ok 200 }

/-- A working cart-page fallback environment for update/remove. -/
def liveCartEnv : CartService.CartFormEnv :=
  { cartPage := Except.ok [tokenForm], submit := fun _ _ => Except.ok 200 }

/-- A discovered form with no anti-forgery token among its inputs. -/
def noTokenForm : HtmlForm :=
  { action := some "/kosik/pridat",
    inputs := [{ name := "quantity", value := "1" }] }

/-- A fallback environment whose reference page carries no anti-forgery
token and whose submission endpoint rejects. -/
def noTokenEnv : CartService.FormEnv :=
  { productPage := Except.ok [noTokenForm], submit := fun _ _ => Except.error () }

/-- C1: the claim is right about the intent (the code's own comments and
log messages announce an API-then-form fallback) but wrong about the code:
`addToCartViaApi` swallows every rejection and returns `false`, so the
`catch` that would invoke the form fallback is dead.  Both failing inputs
— a thrown transport error and a resolved response without `success=true`
— reach the generic failure with the form path never attempted, even
though a fully working fallback environment is available. -/
theorem addToCart_apiFailure_skips_form :
    (CartService.addToCart CartService.PostResult.thrown liveFormEnv
      "1471819" 1).formAttempted = false ∧
    (CartService.addToCart CartService.PostResult.thrown liveFormEnv
      "1471819" 1).outcome = CartService.MutationOutcome.failedError ∧
    (CartService.addToCart (CartService.PostResult.resolved 200 none) liveFormEnv
      "1471819" 1).formAttempted = false ∧
    (CartService.addToCart (CartService.PostResult.resolved 200 none) liveFormEnv
      "1471819" 1).outcome = CartService.MutationOutcome.failedError ∧
    (CartService.removeFromCart CartService.PostResult.thrown
      liveCartEnv).formAttempted = false ∧
    (CartService.updateCartItem CartService.PostResult.thrown
      CartService.PostResult.thrown liveCartEnv 2).formAttempted = false :=
  ⟨rfl, rfl, rfl, rfl, rfl, rfl⟩

/-- C2: whenever the structured call resolves with status 200 and
`success=true`, every cart mutation reports success with the form path
never invoked and exactly one state-changing POST (the `getCart()` refresh
that follows is a read-only lookup). -/
theorem apiSuccess_skips_form_single_post :
    (∀ (env : CartService.FormEnv) (pid : String) (q : ℕ),
      CartService.addToCart (CartService.PostResult.resolved 200 (some true)) env pid q
        = { formAttempted := false, mutatingPosts := 1,
            outcome := CartService.MutationOutcome.success }) ∧
    (∀ env : CartService.CartFormEnv,
      CartService.removeFromCart (CartService.PostResult.resolved 200 (some true)) env
        = { formAttempted := false, mutatingPosts := 1,
            outcome := CartService.MutationOutcome.success }) ∧
    (∀ (postRemove : CartService.PostResult) (env : CartService.CartFormEnv) (q : ℕ),
      q ≠ 0 →
      CartService.updateCartItem (CartService.PostResult.resolved 200 (some true))
          postRemove env q
        = { formAttempted := false, mutatingPosts := 1,
            outcome := CartService.MutationOutcome.success }) := by
  refine ⟨fun env pid q => rfl, fun env => rfl, fun postRemove env q hq => ?_⟩
  simp [CartService.updateCartItem, CartService.updateCartViaApi, hq]

/-- Witness for C2: the quantity-2 update with a successful structured
response, in a working fallback environment. -/
theorem apiSuccess_skips_form_single_post_witness :
    (2 : ℕ) ≠ 0 ∧
    CartService.updateCartItem (CartService.PostResult.resolved 200 (some true))
        CartService.PostResult.thrown liveCartEnv 2
      = { formAttempted := false, mutatingPosts := 1,
          outcome := CartService.MutationOutcome.success } :=
  ⟨by decide,
    apiSuccess_skips_form_single_post.2.2 CartService.PostResult.thrown liveCartEnv 2
      (by decide)⟩

/-- C3 counterexample: the structured call throws and the fallback page has
no anti-forgery token, yet the mutation neither performs form discovery nor
throws any token-specific error: the form helper, even called directly,
returns the soft value `false`, and the mutation ends in the generic
failure with the form path never attempted.  (`CsrfTokenMissing`-style hard
failures exist in the checkout and delivery-location services, not in the
cart mutator.) -/
theorem addToCart_missingToken_soft_counterexample :
    noTokenForm.inputs.all (fun i => i.name != "_token") = true ∧
    CartService.addToCartViaForm noTokenEnv "1471819" 1 = Except.ok false ∧
    (CartService.addToCart CartService.PostResult.thrown noTokenEnv
      "1471819" 1).formAttempted = false ∧
    (CartService.addToCart CartService.PostResult.thrown noTokenEnv
      "1471819" 1).outcome = CartService.MutationOutcome.failedError :=
  ⟨rfl, rfl, rfl, rfl⟩

/-- C3 (amended): the cart mutation never throws a token-related error: its
form helper performs no anti-forgery check and returns a soft boolean for
every environment (it never throws), and after a failed structured call the
mutation reports the generic failure without attempting the form path at
all. -/
theorem addToCartViaForm_soft_failure_only :
    (∀ (env : CartService.FormEnv) (pid : String) (q : ℕ),
      ∃ b, CartService.addToCartViaForm env pid q = Except.ok b) ∧
    (∀ (env : CartService.FormEnv) (pid : String) (q : ℕ),
      (CartService.addToCart CartService.PostResult.thrown env pid q).formAttempted
          = false ∧
      (CartService.addToCart CartService.PostResult.thrown env pid q).outcome
          = CartService.MutationOutcome.failedError) := by
  refine ⟨fun env pid q => ?_, fun env pid q => ⟨rfl, rfl⟩⟩
  unfold CartService.addToCartViaForm
  match env.productPage with
  | Except.error e => exact ⟨false, rfl⟩
  | Except.ok forms =>
    cases h : env.submit (jsOrOptStr (forms.head?.bind fun f => f.action) "/kosik/pridat")
        (uspSet (uspSet (collectInputs forms.head?) "product_id" pid) "quantity"
          (toString q)) with
    | error e => simp [h]
    | ok status => simp [h]

/-! ## HTML extraction engine

Embeds `HtmlParserService.parseProductPage` and `parseProductCard`
(middleware/src/services/html-parser.ts).  A product page document is
abstracted to what the extraction chains read from it: for each per-field
selector chain, the list of `$(selector).first().text()` results in chain
order (the empty string standing for an empty selection), plus attribute
and table data for the remaining fields. -/

/-- JavaScript `Math.round`: round half toward positive infinity,
`Math.round(x) = floor(x + 0.5)`. -/
def jsRound (x : ℚ) : ℤ := ⌊x + 1 / 2⌋

/-- JavaScript `o || d` for an optional number: `undefined`, `0` (and NaN,
which cannot occur here) are falsy. -/
def jsOrQ (o : Option ℚ) (d : ℚ) : ℚ :=
  match o with
  | none => d
  | some x => if x = 0 then d else x

/-- The shared shape of the string-valued selector chains: trim each
result in order and return the first non-empty one. -/
def firstNonemptyText : List String → Option String
  | [] => none
  | t :: ts =>
    let s := jsTrim t
    if s ≠ "" then some s else firstNonemptyText ts

/-- The shared shape of the price-valued selector chains: parse each
trimmed result in order and return the first defined price. -/
def firstParsedPrice : List String → Option ℚ
  | [] => none
  | t :: ts =>
    match HtmlParserService.parsePrice (jsTrim t) with
    | some p => some p
    | none => firstParsedPrice ts

/-- What `parseProductPage` reads from a product page: per selector chain,
the text of the first matching element (lines 134-368 of the parser). -/
structure ProductPageDoc where
  nameTexts : List String
  priceTexts : List String
  originalPriceTexts : List String
  unitTexts : List String
  unitPriceTexts : List String
  unitTypeTexts : List String
  imageSrcs : List (Option String)
  descriptionTexts : List String
  categoryTexts : List String
  tagTexts : List String
  outOfStockMatch : Bool
  weightTexts : List String
  nutritionRows : List (String × String)
  ingredientsTexts : List String
deriving Repr

/-- The parsed entity (`ParsedProductData`, lines 4-21).  Optional fields
absent from the source record are `none`; `discount` is an integer since it
is always a `Math.round` result. -/
structure ParsedProductData where
  id : String
  name : String
  price : ℚ
  originalPrice : Option ℚ
  discount : Option ℤ
  unit : String
  unitPrice : ℚ
  unitType : String
  weight : Option String
  description : Option String
  imageUrl : Option String
  category : Option String
  tags : List String
  inStock : Bool
  nutritionalInfo : Option (List (String × String))
  ingredients : Option String
deriving Repr

namespace HtmlParserService

/-- Lines 134-151: first selector whose trimmed text is non-empty. -/
def extractProductName (doc : ProductPageDoc) : Option String :=
  firstNonemptyText doc.nameTexts

/-- Lines 153-170: first selector whose trimmed text parses as a price. -/
def extractPrice (doc : ProductPageDoc) : Option ℚ :=
  firstParsedPrice doc.priceTexts

/-- Lines 172-189. -/
def extractOriginalPrice (doc : ProductPageDoc) : Option ℚ :=
  firstParsedPrice doc.originalPriceTexts

/-- Lines 191-204: falls back to the literal `'ks'`. -/
def extractUnit (doc : ProductPageDoc) : String :=
  (firstNonemptyText doc.unitTexts).getD "ks"

/-- Lines 206-220. -/
def extractUnitPrice (doc : ProductPageDoc) : Option ℚ :=
  firstParsedPrice doc.unitPriceTexts

/-- Lines 222-234. -/
def extractUnitType (doc : ProductPageDoc) : String :=
  (firstNonemptyText doc.unitTypeTexts).getD "ks"

/-- Lines 236-250: first truthy `src` attribute, absolutised unless it
already starts with `http`. -/
def extractImageUrl : List (Option String) → Option String
  | [] => none
  | none :: rest => extractImageUrl rest
  | some src :: rest =>
    if src = "" then extractImageUrl rest
    else some (if src.startsWith "http" then src else "https://www.rohlik.cz" ++ src)

/-- Lines 252-266. -/
def extractDescription (doc : ProductPageDoc) : Option String :=
  firstNonemptyText doc.descriptionTexts

/-- Lines 268-281. -/
def extractCategory (doc : ProductPageDoc) : Option String :=
  firstNonemptyText doc.categoryTexts

/-- Lines 283-305: collect trimmed, non-empty, not-yet-seen tag texts in
document order. -/
def extractTags (doc : ProductPageDoc) : List String :=
  doc.tagTexts.foldl
    (fun acc t =>
      let tag := jsTrim t
      if tag ≠ "" ∧ ¬ acc.contains tag then acc ++ [tag] else acc)
    []

/-- Lines 307-321: in stock unless an out-of-stock indicator matched. -/
def extractStockStatus (doc : ProductPageDoc) : Bool :=
  !doc.outOfStockMatch

/-- Lines 323-336. -/
def extractWeight (doc : ProductPageDoc) : Option String :=
  firstNonemptyText doc.weightTexts

/-- Lines 338-353: build the label/value record, skipping rows with a falsy
label or value or with `label === value`; assignment to an existing label
overwrites it in place (JavaScript object keys); an empty record becomes
`undefined`. -/
def extractNutritionalInfo (doc : ProductPageDoc) : Option (List (String × String)) :=
  let m := doc.nutritionRows.foldl
    (fun acc r =>
      let label := jsTrim r.1
      let value := jsTrim r.2
      if label ≠ "" ∧ value ≠ "" ∧ label ≠ value then uspSet acc label value else acc)
    []
  if m = [] then none else some m

/-- Lines 355-368. -/
def extractIngredients (doc : ProductPageDoc) : Option String :=
  firstNonemptyText doc.ingredientsTexts

/-- Lines 36-96: `parseProductPage`.  All fields are extracted, the
discount is derived under the truthiness guard `originalPrice && price`,
and the entity is assembled with `||`-defaults; the surrounding `catch`
(returning `null`) only fires when the HTML loader throws, which the
abstract document cannot, so the result is always a populated entity. -/
def parseProductPage (doc : ProductPageDoc) (productId : String) :
    Option ParsedProductData :=
  let name := extractProductName doc
  let price := extractPrice doc
  let originalPrice := extractOriginalPrice doc
  let unit := extractUnit doc
  let unitPrice := extractUnitPrice doc
  let unitType := extractUnitType doc
  let discount : Option ℤ :=
    match originalPrice, price with
    | some op, some p =>
      if op ≠ 0 ∧ p ≠ 0 then some (jsRound ((op - p) / op * 100)) else none
    | _, _ => none
  some
    { id := productId
      name := jsOrOptStr name "Unknown Product"
      price := jsOrQ price 0
      originalPrice := originalPrice
      discount := discount
      unit := jsOrStr unit "ks"
      unitPrice := jsOrQ unitPrice (jsOrQ price 0)
      unitType := jsOrStr unitType "ks"
      weight := extractWeight doc
      description := extractDescription doc
      imageUrl := extractImageUrl doc.imageSrcs
      category := extractCategory doc
      tags := extractTags doc
      inStock := extractStockStatus doc
      nutritionalInfo := extractNutritionalInfo doc
      ingredients := extractIngredients doc }

end HtmlParserService

/-- What `parseProductCard` reads from one product card element: the text
of its first name match and of its first price match. -/
structure ProductCardDoc where
  nameText : String
  priceText : String
deriving DecidableEq, Repr

namespace HtmlParserService

/-- Lines 370-398: `parseProductCard`.  A falsy (empty) name or an
undefined price fails the card (`null`); otherwise a minimal entity is
built. -/
def parseProductCard (card : ProductCardDoc) (productId : String) :
    Option ParsedProductData :=
  let name := jsTrim card.nameText
  let price := parsePrice (jsTrim card.priceText)
  if name = "" ∨ price = none then none
  else
    some
      { id := productId, name := name, price := price.getD 0,
        originalPrice := none, discount := none, unit := "ks",
        unitPrice := price.getD 0, unitType := "ks", weight := none,
        description := none, imageUrl := none, category := none, tags := [],
        inStock := true, nutritionalInfo := none, ingredients := none }

end HtmlParserService

/-- A product page document with every chain empty. -/
def emptyPageDoc : ProductPageDoc :=
  { nameTexts := [], priceTexts := [], originalPriceTexts := [],
    unitTexts := [], unitPriceTexts := [], unitTypeTexts := [],
    imageSrcs := [], descriptionTexts := [], categoryTexts := [],
    tagTexts := [], outOfStockMatch := false, weightTexts := [],
    nutritionRows := [], ingredientsTexts := [] }

/-- A product page on which no name strategy matches (all six name
selectors yield empty text) but the price chain finds `57,90 Kč`. -/
def namelessPageDoc : ProductPageDoc :=
  { emptyPageDoc with
    nameTexts := ["", "", "", "", "", ""],
    priceTexts := ["57,90 Kč"] }

/-- C4 counterexample: on a page with a price but no name,
`parseProductPage` does not return `null` — it substitutes the placeholder
name `'Unknown Product'` and returns a populated entity.  (The claim holds
only for the card parser, not for the page parser it also cites.) -/
theorem parseProductPage_missingName_counterexample :
    HtmlParserService.extractProductName namelessPageDoc = none ∧
    HtmlParserService.extractPrice namelessPageDoc
      = some (ratOfDigits false [ '5', '7' ] [ '9', '0' ]) ∧
    HtmlParserService.parseProductPage namelessPageDoc "1471819" ≠ none ∧
    (HtmlParserService.parseProductPage namelessPageDoc "1471819").map
        (fun e => e.name) = some "Unknown Product" :=
  ⟨rfl, rfl, fun h => Option.noConfusion h, rfl⟩

/-- C4 (amended): the identity-field rule holds for product cards —
`parseProductCard` yields `null` whenever the name is missing, price or no
price — while `parseProductPage` never fails on a missing name: it returns
an entity whose name is the placeholder `'Unknown Product'`. -/
theorem parseProductCard_missingName_null :
    (∀ (card : ProductCardDoc) (pid : String), jsTrim card.nameText = "" →
      HtmlParserService.parseProductCard card pid = none) ∧
    (∀ (doc : ProductPageDoc) (pid : String),
      HtmlParserService.extractProductName doc = none →
      (HtmlParserService.parseProductPage doc pid).map (fun e => e.name)
        = some "Unknown Product") := by
  constructor
  · intro card pid h
    simp [HtmlParserService.parseProductCard, h]
  · intro doc pid h
    simp [HtmlParserService.parseProductPage, h, jsOrOptStr]

/-- Witness for C4 (amended): a card with an empty name and the price
`57,90`, and the nameless page document. -/
theorem parseProductCard_missingName_null_witness :
    jsTrim (ProductCardDoc.mk "" "57,90").nameText = "" ∧
    HtmlParserService.parseProductCard (ProductCardDoc.mk "" "57,90") "1" = none ∧
    HtmlParserService.extractProductName namelessPageDoc = none ∧
    (HtmlParserService.parseProductPage namelessPageDoc "1").map (fun e => e.name)
      = some "Unknown Product" :=
  ⟨by decide, parseProductCard_missingName_null.1 (ProductCardDoc.mk "" "57,90") "1"
      (by decide),
    by decide, parseProductCard_missingName_null.2 namelessPageDoc "1" (by decide)⟩

/-- The spec's worked example: original price `88,90`, current price
`57,90`. -/
def markdownPageDoc : ProductPageDoc :=
  { emptyPageDoc with
    nameTexts := ["Deli Q Daily Plant"],
    priceTexts := ["57,90 Kč"],
    originalPriceTexts := ["88,90 Kč"] }

/-- A page whose crossed-out price is lower than the current price. -/
def inverseMarkdownDoc : ProductPageDoc :=
  { emptyPageDoc with
    nameTexts := ["Deli Q Daily Plant"],
    priceTexts := ["60"],
    originalPriceTexts := ["50"] }

/-- The discount field of a parsed page, expressed through the two price
extractions (definitional: the statement mirrors the `discount` binding of
`parseProductPage`). -/
theorem parseProductPage_discount (doc : ProductPageDoc) (pid : String) :
    (HtmlParserService.parseProductPage doc pid).map (fun e => e.discount)
      = some
        (match HtmlParserService.extractOriginalPrice doc,
            HtmlParserService.extractPrice doc with
          | some op, some p =>
            if op ≠ 0 ∧ p ≠ 0 then some (jsRound ((op - p) / op * 100)) else none
          | _, _ => none) := rfl

/-- C6 counterexample: with `originalPrice = 50 < price = 60` the code
still computes the discount — the guard is only truthiness of both numbers,
not `originalPrice > price` — and stores `round((50-60)/50*100) = -20`,
where the claim requires the field to be absent. -/
theorem discount_without_markdown_counterexample :
    HtmlParserService.extractOriginalPrice inverseMarkdownDoc
      = some (ratOfDigits false [ '5', '0' ] []) ∧
    HtmlParserService.extractPrice inverseMarkdownDoc
      = some (ratOfDigits false [ '6', '0' ] []) ∧
    ratOfDigits false [ '5', '0' ] [] < ratOfDigits false [ '6', '0' ] [] ∧
    (HtmlParserService.parseProductPage inverseMarkdownDoc "1").map
        (fun e => e.discount) = some (some (-20)) := by
  have e50 : ratOfDigits false [ '5', '0' ] [] = (50 : ℚ) := by
    norm_num [ratOfDigits, show digitsToNat [ '5', '0' ] = 50 from rfl,
      show digitsToNat ([] : List Char) = 0 from rfl]
  have e60 : ratOfDigits false [ '6', '0' ] [] = (60 : ℚ) := by
    norm_num [ratOfDigits, show digitsToNat [ '6', '0' ] = 60 from rfl,
      show digitsToNat ([] : List Char) = 0 from rfl]
  refine ⟨rfl, rfl, by rw [e50, e60]; norm_num, ?_⟩
  rw [parseProductPage_discount,
    show HtmlParserService.extractOriginalPrice inverseMarkdownDoc
      = some (ratOfDigits false [ '5', '0' ] []) from rfl, e50,
    show HtmlParserService.extractPrice inverseMarkdownDoc
      = some (ratOfDigits false [ '6', '0' ] []) from rfl, e60]
  show some (if (50 : ℚ) ≠ 0 ∧ (60 : ℚ) ≠ 0
      then some (jsRound (((50 : ℚ) - 60) / 50 * 100)) else none)
    = some (some (-20))
  rw [if_pos (show (50 : ℚ) ≠ 0 ∧ (60 : ℚ) ≠ 0 by norm_num),
    show ((50 : ℚ) - 60) / 50 * 100 = -20 by norm_num]
  have hfl : jsRound (-20 : ℚ) = -20 := by
    rw [jsRound, Int.floor_eq_iff]
    constructor <;> norm_num
  rw [hfl]

/-- C6 (amended): the discount equals
`round((originalPrice - price) / originalPrice * 100)` and is computed
exactly when both extracted prices are present and non-zero — with no
`originalPrice > price` requirement, so it can be zero or negative — and
the worked example `originalPrice = 88.90`, `price = 57.90` yields `35`. -/
theorem discount_formula :
    (∀ (doc : ProductPageDoc) (pid : String),
      (HtmlParserService.parseProductPage doc pid).map (fun e => e.discount)
        = some
          (match HtmlParserService.extractOriginalPrice doc,
              HtmlParserService.extractPrice doc with
            | some op, some p =>
              if op ≠ 0 ∧ p ≠ 0 then some (jsRound ((op - p) / op * 100)) else none
            | _, _ => none)) ∧
    (HtmlParserService.parseProductPage markdownPageDoc "1471819").map
        (fun e => e.discount) = some (some 35) := by
  constructor
  · intro doc pid
    rfl
  · have e889 : ratOfDigits false [ '8', '8' ] [ '9', '0' ] = (889 / 10 : ℚ) := by
      norm_num [ratOfDigits, show digitsToNat [ '8', '8' ] = 88 from rfl,
        show digitsToNat [ '9', '0' ] = 90 from rfl]
    have e579 : ratOfDigits false [ '5', '7' ] [ '9', '0' ] = (579 / 10 : ℚ) := by
      norm_num [ratOfDigits, show digitsToNat [ '5', '7' ] = 57 from rfl,
        show digitsToNat [ '9', '0' ] = 90 from rfl]
    rw [parseProductPage_discount,
      show HtmlParserService.extractOriginalPrice markdownPageDoc
        = some (ratOfDigits false [ '8', '8' ] [ '9', '0' ]) from rfl, e889,
      show HtmlParserService.extractPrice markdownPageDoc
        = some (ratOfDigits false [ '5', '7' ] [ '9', '0' ]) from rfl, e579]
    show some (if (889 / 10 : ℚ) ≠ 0 ∧ (579 / 10 : ℚ) ≠ 0
        then some (jsRound (((889 / 10 : ℚ) - 579 / 10) / (889 / 10) * 100)) else none)
      = some (some 35)
    rw [if_pos (show (889 / 10 : ℚ) ≠ 0 ∧ (579 / 10 : ℚ) ≠ 0 by norm_num)]
    have hfl : jsRound (((889 / 10 : ℚ) - 579 / 10) / (889 / 10) * 100) = 35 := by
      rw [jsRound, show (((889 / 10 : ℚ) - 579 / 10) / (889 / 10) * 100 + 1 / 2 : ℚ)
          = 62889 / 1778 by norm_num, Int.floor_eq_iff]
      constructor <;> norm_num
    rw [hfl]

/-! ## Price-parsing claims -/

/-- C5 counterexample: the claim covers both cited routines, but
`HtmlParserService.parsePrice` yields `undefined` (`none`) on the empty
string and on `"abc"`, not `0`. -/
theorem htmlParsePrice_not_zero_counterexample :
    HtmlParserService.parsePrice "" = none ∧
    HtmlParserService.parsePrice "abc" = none ∧
    ¬ HtmlParserService.parsePrice "abc" = some 0 :=
  ⟨rfl, rfl, fun h => Option.noConfusion h⟩

/-- C5 (amended): on every input from which no decimal number can be parsed
after cleaning (the empty string and digit-free strings such as `"abc"`
included), `CartService.parsePrice` yields `0`, while
`HtmlParserService.parsePrice` yields the absent value `undefined` — its
callers later default the entity's price to `0` via `price || 0`. -/
theorem parsePrice_unparsable_defaults (s : String)
    (h : jsParseFloat (normalizePrice s) = none) :
    CartService.parsePrice s = 0 ∧ HtmlParserService.parsePrice s = none := by
  constructor
  · unfold CartService.parsePrice
    split
    · rfl
    · rw [h]
  · unfold HtmlParserService.parsePrice
    split
    · rfl
    · exact h

/-- Witness for C5 (amended): the input `"abc"`. -/
theorem parsePrice_unparsable_defaults_witness :
    jsParseFloat (normalizePrice "abc") = none ∧
    (CartService.parsePrice "abc" = 0 ∧ HtmlParserService.parsePrice "abc" = none) :=
  ⟨by decide, parsePrice_unparsable_defaults "abc" (by decide)⟩

theorem replaceFirstComma_no_comma (l : List Char) (h : ',' ∉ l) :
    replaceFirstComma l = l := by
  induction l with
  | nil => rfl
  | cons c rest ih =>
    have hc : ¬ c = ',' := fun hcc => h (hcc ▸ List.mem_cons_self c rest)
    simp [replaceFirstComma, hc, ih fun hm => h (List.mem_cons_of_mem c hm)]

theorem replaceFirstComma_append (l r : List Char) (h : ',' ∉ l) :
    replaceFirstComma (l ++ ',' :: r) = l ++ '.' :: r := by
  induction l with
  | nil => simp [replaceFirstComma]
  | cons c rest ih =>
    have hc : ¬ c = ',' := fun hcc => h (hcc ▸ List.mem_cons_self c rest)
    simp [replaceFirstComma, hc, ih fun hm => h (List.mem_cons_of_mem c hm)]

theorem priceString_ne_empty (s t : List Char) (c : Char) :
    (⟨s ++ c :: t⟩ : String) ≠ "" := by
  intro hEq
  have hd : s ++ c :: t = ([] : List Char) := congrArg String.data hEq
  simp at hd

/-- C10: replacing the single comma of a decimal string by a dot leaves
both price parsers' results unchanged — for any surrounding characters free
of further commas, so in particular for every plain comma-decimal string —
and the worked example `"57,90"` parses to the value `57.9`. -/
theorem parsePrice_comma_dot_equiv :
    (∀ (s t : List Char), ',' ∉ s → ',' ∉ t →
      CartService.parsePrice ⟨s ++ ',' :: t⟩ = CartService.parsePrice ⟨s ++ '.' :: t⟩ ∧
      HtmlParserService.parsePrice ⟨s ++ ',' :: t⟩
        = HtmlParserService.parsePrice ⟨s ++ '.' :: t⟩) ∧
    CartService.parsePrice "57,90" = ratOfDigits false [ '5', '7' ] [ '9', '0' ] ∧
    ratOfDigits false [ '5', '7' ] [ '9', '0' ] = (579 / 10 : ℚ) := by
  have hval : ratOfDigits false [ '5', '7' ] [ '9', '0' ] = (579 / 10 : ℚ) := by
    norm_num [ratOfDigits, show digitsToNat [ '5', '7' ] = 57 from rfl,
      show digitsToNat [ '9', '0' ] = 90 from rfl]
  refine ⟨?_, rfl, hval⟩
  intro s t hs ht
  have hclean : ∀ c : Char, isPriceChar c = true →
      cleanPriceChars (s ++ c :: t) = cleanPriceChars s ++ c :: cleanPriceChars t := by
    intro c hc
    simp [cleanPriceChars, List.filter_append, List.filter_cons, hc]
  have hs2 : ',' ∉ cleanPriceChars s := fun hm => hs (List.mem_of_mem_filter hm)
  have ht2 : ',' ∉ cleanPriceChars t := fun hm => ht (List.mem_of_mem_filter hm)
  have hnorm : normalizePrice ⟨s ++ ',' :: t⟩ = normalizePrice ⟨s ++ '.' :: t⟩ := by
    show replaceFirstComma (cleanPriceChars (s ++ ',' :: t))
      = replaceFirstComma (cleanPriceChars (s ++ '.' :: t))
    rw [hclean ',' rfl, hclean '.' rfl, replaceFirstComma_append _ _ hs2,
      replaceFirstComma_no_comma]
    intro hm
    rcases List.mem_append.mp hm with h1 | h1
    · exact hs2 h1
    · rcases List.mem_cons.mp h1 with h2 | h2
      · exact absurd h2 (by decide)
      · exact ht2 h2
  constructor
  · unfold CartService.parsePrice
    rw [if_neg (priceString_ne_empty s t ','), if_neg (priceString_ne_empty s t '.'),
      hnorm]
  · unfold HtmlParserService.parsePrice
    rw [if_neg (priceString_ne_empty s t ','), if_neg (priceString_ne_empty s t '.'),
      hnorm]

/-- Witness for C10: the worked example `"57,90"` / `"57.90"`. -/
theorem parsePrice_comma_dot_equiv_witness :
    (',' ∉ [ '5', '7' ]) ∧ (',' ∉ [ '9', '0' ]) ∧
    CartService.parsePrice ⟨[ '5', '7' ] ++ ',' :: [ '9', '0' ]⟩
      = CartService.parsePrice ⟨[ '5', '7' ] ++ '.' :: [ '9', '0' ]⟩ :=
  ⟨by decide, by decide,
    (parsePrice_comma_dot_equiv.1 [ '5', '7' ] [ '9', '0' ] (by decide) (by decide)).1⟩

end RohlikApi
